import Mathlib

/-!
Verification of the Builder design-pattern repository (`src/creational/builder.ts`
and the compiled variant `src/unnamed/part_000`).

The source is a TypeScript illustration of the Builder creational pattern:
a `House` product accumulating string part labels, two concrete builders
(`CheapHouseBuilder` and `CastleBuilder`, the compiled file's
`ConcreteBuilder1` coinciding with `CheapHouseBuilder`), and a `Director`
with fixed recipes `buildBasicHouse` and `buildFullHouse`
(`buildLuxuryHouse` in the compiled file).

We embed the code shallowly: the mutable `House` becomes a list of strings,
each builder method becomes a state-passing function, and the Director's
possibly-unbound builder reference becomes an `Option`, with recipes
returning `Except` so that the runtime fault raised on an unbound builder
(in TypeScript, the `TypeError` from calling a method of `undefined`)
is an explicit error value.  For the aliasing / frame claims we add a small
heap model in which houses live in a store addressed by natural numbers.
-/

namespace BuilderPattern

/-- The seven production steps declared by the `Builder` interface
(`produceWalls` … `produceGarden`). -/
inductive Step where
  | walls
  | windows
  | door
  | roof
  | swimmingPool
  | garage
  | garden
deriving DecidableEq, Repr

/-- The `House` product: an ordered sequence of part labels
(`public parts: string[] = []`). -/
structure House where
  parts : List String
deriving DecidableEq, Repr

/-- `new House()`: the parts array starts empty. -/
def House.empty : House := ⟨[]⟩

/-- `House.listParts`: the text handed to `console.log`.  The template
literal starts with the text `House parts: `, joins the parts with a comma
and a space, and ends with a newline escape. -/
def House.listParts (h : House) : String :=
  "House parts: " ++ String.intercalate ", " h.parts ++ "\n"

/-- The two concrete builder classes of `builder.ts`. -/
inductive Variant where
  | cheapHouse
  | castle
deriving DecidableEq, Repr

/-- The label each variant pushes for each step.  The two classes differ
only in `produceWalls`: `CheapHouseBuilder` pushes `Walls` while
`CastleBuilder` pushes `Walls marmol`; every other step pushes the same
literal in both classes. -/
def stepLabel (v : Variant) : Step → String
  | .walls =>
      match v with
      | .cheapHouse => "Walls"
      | .castle => "Walls marmol"
  | .windows => "Windows"
  | .door => "Door"
  | .roof => "Roof"
  | .swimmingPool => "Swimming pool"
  | .garage => "Garage"
  | .garden => "Garden"

/-- The state of one concrete builder: which class it is and the `House`
it currently holds in its private `house` field. -/
structure BuilderState where
  variant : Variant
  house : House
deriving DecidableEq, Repr

/-- `reset()`: `this.house = new House()`. -/
def BuilderState.reset (b : BuilderState) : BuilderState :=
  { b with house := House.empty }

/-- A freshly constructed builder of the given class: the constructor
body is `this.reset()`, so the builder starts with a blank product. -/
def freshBuilder (v : Variant) : BuilderState :=
  BuilderState.reset { variant := v, house := House.empty }

/-- `new CheapHouseBuilder()`. -/
def mkCheapHouseBuilder : BuilderState := freshBuilder .cheapHouse

set_option linter.unusedVariables false in
/-- `new CastleBuilder(bridge)`: the constructor takes a `bridge` argument
but its body is just `this.reset()`; the argument is never read. -/
def mkCastleBuilder (bridge : Nat) : BuilderState := freshBuilder .castle

/-- One production step: `this.house.parts.push(<label>)`. -/
def BuilderState.produce (b : BuilderState) (s : Step) : BuilderState :=
  { b with house := ⟨b.house.parts ++ [stepLabel b.variant s]⟩ }

/-- `produceWalls()`. -/
def BuilderState.produceWalls (b : BuilderState) : BuilderState := b.produce .walls

/-- `produceWindows()`. -/
def BuilderState.produceWindows (b : BuilderState) : BuilderState := b.produce .windows

/-- `produceDoor()`. -/
def BuilderState.produceDoor (b : BuilderState) : BuilderState := b.produce .door

/-- `produceRoof()`. -/
def BuilderState.produceRoof (b : BuilderState) : BuilderState := b.produce .roof

/-- `produceSwimmingPool()`. -/
def BuilderState.produceSwimmingPool (b : BuilderState) : BuilderState :=
  b.produce .swimmingPool

/-- `produceGarage()`. -/
def BuilderState.produceGarage (b : BuilderState) : BuilderState := b.produce .garage

/-- `produceGarden()`. -/
def BuilderState.produceGarden (b : BuilderState) : BuilderState := b.produce .garden

/-- `getHouse()`: return the current house and reset
(`const result = this.house; this.reset(); return result;`). -/
def BuilderState.getHouse (b : BuilderState) : House × BuilderState :=
  (b.house, b.reset)

/-- Run a sequence of production steps, in order, on a builder. -/
def runSteps (b : BuilderState) : List Step → BuilderState
  | [] => b
  | s :: rest => runSteps (b.produce s) rest

/-- The fault raised when a Director recipe runs with no builder bound
(in the TypeScript runtime, the `TypeError` thrown by
`this.builder.produceWalls()` when `this.builder` is `undefined`). -/
inductive DirectorFault where
  | unboundBuilder
deriving DecidableEq, Repr

/-- The `Director`: its private `builder` field, unset until `setBuilder`
is called. -/
structure Director where
  builder : Option BuilderState
deriving DecidableEq, Repr

/-- `new Director()`: no builder bound yet. -/
def Director.init : Director := ⟨none⟩

/-- `setBuilder(builder)`: `this.builder = builder`. -/
def Director.setBuilder (d : Director) (b : BuilderState) : Director :=
  { d with builder := some b }

/-- `buildBasicHouse()`: walls, windows, door, roof on the bound builder;
a fault when no builder is bound. -/
def Director.buildBasicHouse (d : Director) : Except DirectorFault Director :=
  match d.builder with
  | none => .error .unboundBuilder
  | some b =>
      .ok ⟨some b.produceWalls.produceWindows.produceDoor.produceRoof⟩

/-- `buildFullHouse()`: walls, windows, door, roof, garage, swimming pool,
garden on the bound builder; a fault when no builder is bound. -/
def Director.buildFullHouse (d : Director) : Except DirectorFault Director :=
  match d.builder with
  | none => .error .unboundBuilder
  | some b =>
      .ok ⟨some b.produceWalls.produceWindows.produceDoor.produceRoof.produceGarage.produceSwimmingPool.produceGarden⟩

/-- `buildLuxuryHouse()` from the compiled file `part_000`: the same body
as `buildFullHouse`. -/
def Director.buildLuxuryHouse (d : Director) : Except DirectorFault Director :=
  match d.builder with
  | none => .error .unboundBuilder
  | some b =>
      .ok ⟨some b.produceWalls.produceWindows.produceDoor.produceRoof.produceGarage.produceSwimmingPool.produceGarden⟩

/- ### Basic lemmas about the pure builder model -/

theorem produce_variant (b : BuilderState) (s : Step) :
    (b.produce s).variant = b.variant := rfl

theorem runSteps_variant (S : List Step) (b : BuilderState) :
    (runSteps b S).variant = b.variant := by
  induction S generalizing b with
  | nil => rfl
  | cons s rest ih => simpa [runSteps] using ih (b.produce s)

theorem runSteps_parts (S : List Step) (b : BuilderState) :
    (runSteps b S).house.parts
      = b.house.parts ++ S.map (stepLabel b.variant) := by
  induction S generalizing b with
  | nil => simp [runSteps]
  | cons s rest ih =>
      rw [runSteps, ih (b.produce s)]
      simp [BuilderState.produce]

/- ### Public mutating operations of a concrete builder -/

/-- Any public mutating operation of a concrete builder: one of the seven
production steps, an explicit `reset`, or `getHouse`. -/
inductive BOp where
  | produce (s : Step)
  | reset
  | getHouse
deriving DecidableEq, Repr

/-- Apply one operation to a builder, also reporting the house handed out
when the operation is `getHouse`. -/
def BuilderState.applyBOp (b : BuilderState) : BOp → BuilderState × Option House
  | .produce s => (b.produce s, none)
  | .reset => (b.reset, none)
  | .getHouse => (b.getHouse.2, some b.getHouse.1)

/-- Run a sequence of operations, collecting every house handed out. -/
def BuilderState.runBOps (b : BuilderState) : List BOp → BuilderState × List House
  | [] => (b, [])
  | op :: rest =>
      let stepped := b.applyBOp op
      let tail := stepped.1.runBOps rest
      (tail.1, stepped.2.toList ++ tail.2)

/- ### Heap model, for the aliasing / detachment claim -/

/-- One concrete builder together with a heap of house objects: `houses`
maps house ids to parts arrays, and `ref` is the id of the house object
the private `house` field currently points to.  This makes aliasing
observable: `getHouse` hands out the id of the current house object, and
`reset` allocates a fresh empty one and repoints the field. -/
structure HeapState where
  houses : List (List String)
  variant : Variant
  ref : Nat
deriving DecidableEq, Repr

/-- The parts array of the house object with id `r` (empty for a dangling
id). -/
def HeapState.houseAt (st : HeapState) (r : Nat) : List String :=
  st.houses.getD r []

/-- `reset()` in the heap model: `this.house = new House()` allocates a
fresh empty house object and repoints the field at it. -/
def HeapState.resetH (st : HeapState) : HeapState :=
  { st with houses := st.houses ++ [[]], ref := st.houses.length }

/-- One production step in the heap model: push the label onto the house
object the builder currently points to. -/
def HeapState.produceH (st : HeapState) (s : Step) : HeapState :=
  { st with
    houses := st.houses.set st.ref (st.houseAt st.ref ++ [stepLabel st.variant s]) }

/-- `getHouse()` in the heap model: hand out the id of the current house
object, then reset. -/
def HeapState.getHouseH (st : HeapState) : Nat × HeapState :=
  (st.ref, st.resetH)

/-- Apply one public operation in the heap model. -/
def HeapState.applyOp (st : HeapState) : BOp → HeapState
  | .produce s => st.produceH s
  | .reset => st.resetH
  | .getHouse => st.getHouseH.2

/-- Apply a sequence of public operations in the heap model. -/
def HeapState.applyOps (st : HeapState) : List BOp → HeapState
  | [] => st
  | op :: rest => (st.applyOp op).applyOps rest

/- ### Builder store, for the Director rebinding claim -/

/-- A client-side view for the rebinding claim: builder objects live in a
store addressed by ids, and the field written by `setBuilder` holds an id,
mirroring the fact that in the source the field holds a reference to a
builder object owned by the client. -/
structure DirectorSys where
  builders : List BuilderState
  bound : Option Nat
deriving DecidableEq, Repr

/-- `setBuilder(builder)` in the store model: `this.builder = builder`
writes only the field of the Director. -/
def DirectorSys.setBuilderRef (sys : DirectorSys) (j : Nat) : DirectorSys :=
  { sys with bound := some j }

/- ### The client scenario of `clientCode` -/

/-- The scenario exercised by `clientCode`: bind a freshly constructed
builder of class `v` to a new Director, run `buildBasicHouse`, retrieve
and render the house, then run `buildFullHouse` on the same builder and
retrieve and render again.  Returns both rendered texts; `none` would
signal an unbound-builder fault (unreachable here). -/
def clientScenario (v : Variant) : Option (String × String) := do
  let d1 := Director.init.setBuilder (freshBuilder v)
  let d2 ← d1.buildBasicHouse.toOption
  let b1 ← d2.builder
  let (h1, b2) := b1.getHouse
  let d3 ← (Director.mk (some b2)).buildFullHouse.toOption
  let b3 ← d3.builder
  let (h2, _) := b3.getHouse
  return (h1.listParts, h2.listParts)

/- ### Frame lemmas for the heap model -/

theorem houseAt_resetH (st : HeapState) (r : Nat) (hr : r < st.houses.length) :
    st.resetH.houseAt r = st.houseAt r := by
  simp [HeapState.resetH, HeapState.houseAt, List.getD_eq_getElem?_getD,
    List.getElem?_append_left hr]

theorem houseAt_produceH (st : HeapState) (s : Step) (r : Nat) (hne : st.ref ≠ r) :
    (st.produceH s).houseAt r = st.houseAt r := by
  simp [HeapState.produceH, HeapState.houseAt, List.getD_eq_getElem?_getD,
    List.getElem?_set_ne hne]

theorem applyOps_houseAt_frame (ops : List BOp) (st : HeapState) (r : Nat)
    (hr : r < st.houses.length) (hne : st.ref ≠ r) :
    (st.applyOps ops).houseAt r = st.houseAt r := by
  induction ops generalizing st with
  | nil => rfl
  | cons op rest ih =>
      have key : (st.applyOp op).houseAt r = st.houseAt r ∧
          r < (st.applyOp op).houses.length ∧ (st.applyOp op).ref ≠ r := by
        cases op with
        | produce s =>
            refine ⟨houseAt_produceH st s r hne, ?_, hne⟩
            simpa [HeapState.applyOp, HeapState.produceH] using hr
        | reset =>
            refine ⟨houseAt_resetH st r hr, ?_, ?_⟩
            · simp [HeapState.applyOp, HeapState.resetH]
              omega
            · simp [HeapState.applyOp, HeapState.resetH]
              omega
        | getHouse =>
            refine ⟨houseAt_resetH st r hr, ?_, ?_⟩
            · simp [HeapState.applyOp, HeapState.getHouseH, HeapState.resetH]
              omega
            · simp [HeapState.applyOp, HeapState.getHouseH, HeapState.resetH]
              omega
      rw [HeapState.applyOps, ih (st.applyOp op) key.2.1 key.2.2, key.1]

/- ### Claim theorems -/

/-- C1: for every sequence `S` of step calls on a freshly reset concrete
builder, the product returned by the following `getHouse` carries exactly
the labels of the steps of `S`, in call order, with no reordering and no
deduplication. -/
theorem c1_order_preservation (v : Variant) (S : List Step) :
    ((runSteps (freshBuilder v) S).getHouse).1.parts = S.map (stepLabel v) := by
  simp [BuilderState.getHouse, runSteps_parts, freshBuilder,
    BuilderState.reset, House.empty]

/-- C2: on any Director with a builder bound, in any state of that builder,
one invocation of the full recipe succeeds and appends to the bound
builder's current product exactly the seven labels for walls, windows,
door, roof, garage, swimming pool, garden, in that order; the compiled
file's `buildLuxuryHouse` behaves identically. -/
theorem c2_full_recipe_appends_seven (d : Director) (b : BuilderState)
    (h : d.builder = some b) :
    d.buildFullHouse = .ok ⟨some ⟨b.variant, ⟨b.house.parts
        ++ [Step.walls, .windows, .door, .roof, .garage, .swimmingPool,
            .garden].map (stepLabel b.variant)⟩⟩⟩ ∧
    d.buildLuxuryHouse = d.buildFullHouse := by
  constructor
  · simp [Director.buildFullHouse, h, BuilderState.produceWalls,
      BuilderState.produceWindows, BuilderState.produceDoor,
      BuilderState.produceRoof, BuilderState.produceGarage,
      BuilderState.produceSwimmingPool, BuilderState.produceGarden,
      BuilderState.produce]
  · simp [Director.buildFullHouse, Director.buildLuxuryHouse, h]

theorem c2_full_recipe_appends_seven_witness :
    (Director.init.setBuilder mkCheapHouseBuilder).builder
        = some mkCheapHouseBuilder ∧
    ((Director.init.setBuilder mkCheapHouseBuilder).buildFullHouse
        = .ok ⟨some ⟨mkCheapHouseBuilder.variant, ⟨mkCheapHouseBuilder.house.parts
            ++ [Step.walls, .windows, .door, .roof, .garage, .swimmingPool,
                .garden].map (stepLabel mkCheapHouseBuilder.variant)⟩⟩⟩ ∧
      (Director.init.setBuilder mkCheapHouseBuilder).buildLuxuryHouse
        = (Director.init.setBuilder mkCheapHouseBuilder).buildFullHouse) :=
  ⟨rfl, c2_full_recipe_appends_seven _ mkCheapHouseBuilder rfl⟩

/-- C3: on any Director with a builder bound, in any state of that builder,
one invocation of `buildBasicHouse` succeeds and appends to the bound
builder's current product exactly the four labels for walls, windows,
door, roof, in that order. -/
theorem c3_basic_recipe_appends_four (d : Director) (b : BuilderState)
    (h : d.builder = some b) :
    d.buildBasicHouse = .ok ⟨some ⟨b.variant, ⟨b.house.parts
        ++ [Step.walls, .windows, .door, .roof].map (stepLabel b.variant)⟩⟩⟩ := by
  simp [Director.buildBasicHouse, h, BuilderState.produceWalls,
    BuilderState.produceWindows, BuilderState.produceDoor,
    BuilderState.produceRoof, BuilderState.produce]

theorem c3_basic_recipe_appends_four_witness :
    (Director.init.setBuilder mkCheapHouseBuilder).builder
        = some mkCheapHouseBuilder ∧
    (Director.init.setBuilder mkCheapHouseBuilder).buildBasicHouse
        = .ok ⟨some ⟨mkCheapHouseBuilder.variant, ⟨mkCheapHouseBuilder.house.parts
            ++ [Step.walls, .windows, .door,
                .roof].map (stepLabel mkCheapHouseBuilder.variant)⟩⟩⟩ :=
  ⟨rfl, c3_basic_recipe_appends_four _ mkCheapHouseBuilder rfl⟩

/-- C4: invoking any Director recipe while no builder has ever been bound
surfaces the distinguishable unbound-builder fault (the embedding of the
runtime fault the TypeScript code throws on its undefined builder field),
and no product results: every recipe returns the error and no state. -/
theorem c4_unbound_director_faults :
    Director.init.buildBasicHouse = .error .unboundBuilder ∧
    Director.init.buildFullHouse = .error .unboundBuilder ∧
    Director.init.buildLuxuryHouse = .error .unboundBuilder :=
  ⟨rfl, rfl, rfl⟩

/-- C5: for every concrete builder in any state, `getHouse` followed
immediately by a second `getHouse` with no intervening step calls returns,
on the second call, a product whose label sequence is empty. -/
theorem c5_second_getHouse_empty (b : BuilderState) :
    (((b.getHouse).2).getHouse).1.parts = [] := rfl

/-- C6 fails as stated: the text produced by `listParts` ends in a newline
escape, so for a fresh `CheapHouseBuilder` the basic-recipe render is not
exactly the claimed string, and for a fresh `CastleBuilder` the first
label is `Walls marmol` besides; the claim is false for both concrete
builder classes. -/
theorem c6_counterexample :
    (clientScenario .cheapHouse).map Prod.fst
        ≠ some "House parts: Walls, Windows, Door, Roof" ∧
    (clientScenario .castle).map Prod.fst
        ≠ some "House parts: Walls, Windows, Door, Roof" := by
  decide

/-- C6 amended: with a fresh `CheapHouseBuilder` bound, `buildBasicHouse`
then `getHouse` renders exactly the claimed basic text followed by a
newline escape, and `buildFullHouse` next on the same builder renders
exactly the claimed full text followed by a newline escape; with a fresh
`CastleBuilder` the first label is `Walls marmol` instead of `Walls`. -/
theorem c6_amended_scenario :
    clientScenario .cheapHouse
      = some ("House parts: Walls, Windows, Door, Roof\n",
          "House parts: Walls, Windows, Door, Roof, Garage, Swimming pool, Garden\n") ∧
    clientScenario .castle
      = some ("House parts: Walls marmol, Windows, Door, Roof\n",
          "House parts: Walls marmol, Windows, Door, Roof, Garage, Swimming pool, Garden\n") :=
  ⟨rfl, rfl⟩

/-- C7: an identical recipe run on the two concrete builder classes, each
freshly reset, yields products whose label sequences have equal length and
carry at every position the label of the same recipe step, each in the
wording of its class. -/
theorem c7_variants_same_structure (S : List Step) :
    ((runSteps (freshBuilder .cheapHouse) S).getHouse).1.parts.length
        = ((runSteps (freshBuilder .castle) S).getHouse).1.parts.length ∧
    ((runSteps (freshBuilder .cheapHouse) S).getHouse).1.parts
        = S.map (stepLabel .cheapHouse) ∧
    ((runSteps (freshBuilder .castle) S).getHouse).1.parts
        = S.map (stepLabel .castle) := by
  refine ⟨?_, ?_, ?_⟩ <;>
    simp [BuilderState.getHouse, runSteps_parts, freshBuilder,
      BuilderState.reset, House.empty]

/-- C8: once `getHouse` has handed out a house object, the builder is
detached from it: the builder now points at a fresh empty house object
with a different id, and no sequence of subsequent builder operations
(steps, resets, or further `getHouse` calls) changes the parts of the
handed-out object. -/
theorem c8_product_detached (st : HeapState) (h : st.ref < st.houses.length)
    (ops : List BOp) :
    ((st.getHouseH.2).applyOps ops).houseAt st.getHouseH.1
        = st.houseAt st.getHouseH.1 ∧
    (st.getHouseH.2).houseAt (st.getHouseH.2).ref = [] ∧
    (st.getHouseH.2).ref ≠ st.getHouseH.1 := by
  refine ⟨?_, ?_, ?_⟩
  · have hr : st.getHouseH.1 < (st.getHouseH.2).houses.length := by
      simp [HeapState.getHouseH, HeapState.resetH]
      omega
    have hne : (st.getHouseH.2).ref ≠ st.getHouseH.1 := by
      simp [HeapState.getHouseH, HeapState.resetH]
      omega
    rw [applyOps_houseAt_frame ops _ _ hr hne]
    exact houseAt_resetH st st.ref h
  · simp [HeapState.getHouseH, HeapState.resetH, HeapState.houseAt,
      List.getD_eq_getElem?_getD]
  · simp [HeapState.getHouseH, HeapState.resetH]
    omega

theorem c8_product_detached_witness :
    (HeapState.mk [["Walls"]] Variant.cheapHouse 0).ref
        < (HeapState.mk [["Walls"]] Variant.cheapHouse 0).houses.length ∧
    ((((HeapState.mk [["Walls"]] Variant.cheapHouse 0).getHouseH.2).applyOps
          [BOp.produce Step.door]).houseAt
            ((HeapState.mk [["Walls"]] Variant.cheapHouse 0).getHouseH.1)
        = (HeapState.mk [["Walls"]] Variant.cheapHouse 0).houseAt
            ((HeapState.mk [["Walls"]] Variant.cheapHouse 0).getHouseH.1) ∧
      ((HeapState.mk [["Walls"]] Variant.cheapHouse 0).getHouseH.2).houseAt
            (((HeapState.mk [["Walls"]] Variant.cheapHouse 0).getHouseH.2).ref)
        = [] ∧
      ((HeapState.mk [["Walls"]] Variant.cheapHouse 0).getHouseH.2).ref
        ≠ (HeapState.mk [["Walls"]] Variant.cheapHouse 0).getHouseH.1) :=
  ⟨by decide,
    c8_product_detached (HeapState.mk [["Walls"]] Variant.cheapHouse 0)
      (by decide) [BOp.produce Step.door]⟩

set_option linter.unusedVariables false in
/-- C9: `setBuilder` on a Director with builder `i` bound rebinds the
field to `j` and leaves the builder store — in particular the previously
bound builder and its internal product — unchanged. -/
theorem c9_setBuilder_no_side_effect (sys : DirectorSys) (i j : Nat)
    (h : sys.bound = some i) :
    (sys.setBuilderRef j).bound = some j ∧
    (sys.setBuilderRef j).builders = sys.builders ∧
    (sys.setBuilderRef j).builders.get? i = sys.builders.get? i :=
  ⟨rfl, rfl, rfl⟩

theorem c9_setBuilder_no_side_effect_witness :
    (DirectorSys.mk [mkCheapHouseBuilder, mkCastleBuilder 4] (some 0)).bound
        = some 0 ∧
    (((DirectorSys.mk [mkCheapHouseBuilder, mkCastleBuilder 4]
          (some 0)).setBuilderRef 1).bound = some 1 ∧
      ((DirectorSys.mk [mkCheapHouseBuilder, mkCastleBuilder 4]
          (some 0)).setBuilderRef 1).builders
        = (DirectorSys.mk [mkCheapHouseBuilder, mkCastleBuilder 4]
            (some 0)).builders ∧
      (((DirectorSys.mk [mkCheapHouseBuilder, mkCastleBuilder 4]
          (some 0)).setBuilderRef 1).builders.get? 0)
        = ((DirectorSys.mk [mkCheapHouseBuilder, mkCastleBuilder 4]
            (some 0)).builders.get? 0)) :=
  ⟨rfl,
    c9_setBuilder_no_side_effect
      (DirectorSys.mk [mkCheapHouseBuilder, mkCastleBuilder 4] (some 0)) 0 1 rfl⟩

/-- C10: the `CastleBuilder` constructor ignores its `bridge` argument:
any two argument values yield identical fresh builders, each holding an
empty product, and every identical sequence of subsequent operations on
them yields identical results (final states and handed-out houses). -/
theorem c10_castle_arg_ignored (a b : Nat) :
    mkCastleBuilder a = mkCastleBuilder b ∧
    (mkCastleBuilder a).house = House.empty ∧
    ∀ ops : List BOp,
      (mkCastleBuilder a).runBOps ops = (mkCastleBuilder b).runBOps ops :=
  ⟨rfl, rfl, fun _ => rfl⟩

end BuilderPattern
